import Mathlib

/-!
Verification of the Cashflo TOFU/BOFU dashboard core against its
natural-language specification.

The data model and operations below are shallow embeddings of:
  * the fiscal-calendar helpers (`fy_label`, `fy_quarter`) in
    `pipeline/calculations_2.py`, `pipeline/calculations_3.py` and
    `_fy_label` in `company_metrics.py`;
  * the buyer revenue-share CASE expression in `pipeline/data_pull.py`
    (RequestSummary CTE);
  * the rolling-window aggregates and vendor categories of the
    VendorStats / VendorCategories CTEs in `pipeline/data_pull.py`;
  * the `tofu_cat` / `bofu_cat` classifiers and their call sites in
    `pipeline/calculations_2.py` and `pipeline/calculations_3.py`;
  * the Cash-Rich flag of `enrich_dataframe` in `company_metrics.py`.

Numbers are embedded as `ℚ` (pandas floats / SQL numerics), calendar
months as `ℤ` month indexes (the data only ever carries first-of-month
timestamps, so one calendar month = one index step), and timestamps that
feed day arithmetic as `ℤ` day ordinals.  A pandas value that may be NaN
is embedded as `Option ℚ` with `none` for NaN, matching pandas comparison
semantics (every comparison against NaN is false).  SQL expressions that
can raise (division by zero) return `Except String ℚ`.
-/

namespace Cashflo

/-! Fiscal calendar
`calculations_2.py` lines 20–28, `calculations_3.py` lines 14–15,
`company_metrics.py` lines 81–83. -/

/-- Decimal digit character, for rendering two-digit fiscal years. -/
def digitChar (n : ℕ) : Char := Char.ofNat (48 + n % 10)

/-- Two-digit zero-padded decimal rendering, as the Python format directive 02d renders it. -/
def pad2 (n : ℕ) : String := String.mk [digitChar (n / 10 % 10), digitChar (n % 10)]

/-- Source `fy_label` from `calculations_2.py` line 21:
`f"FY{(d.year + 1 if d.month >= 4 else d.year) % 100:02d}"`. -/
def fy_label (year month : ℕ) : String :=
  "FY" ++ pad2 ((if 4 ≤ month then year + 1 else year) % 100)

/-- Source `fy_quarter` from `calculations_2.py` lines 23–28. -/
def fy_quarter (month : ℕ) : String :=
  if month = 4 ∨ month = 5 ∨ month = 6 then "Q1"
  else if month = 7 ∨ month = 8 ∨ month = 9 then "Q2"
  else if month = 10 ∨ month = 11 ∨ month = 12 then "Q3"
  else "Q4"

/-- Source `_fy_label` from `company_metrics.py` lines 81–83:
`yr = ts.year + 1 if ts.month >= 4 else ts.year; f"FY{str(yr)[-2:]}"`. -/
def fy_label_cm (year month : ℕ) : String :=
  "FY" ++ (toString (if 4 ≤ month then year + 1 else year)).takeRight 2

/-- Spec side: "the fiscal-year label is FY plus the last two digits of
(calendar year + 1) when the month is April or later, and of the calendar
year otherwise". -/
def fyLabelClaim (year month : ℕ) : String :=
  if 4 ≤ month then "FY" ++ pad2 ((year + 1) % 100) else "FY" ++ pad2 (year % 100)

/-- Spec side: "Q1 for Apr–Jun, Q2 for Jul–Sep, Q3 for Oct–Dec, Q4 for
Jan–Mar". -/
def fyQuarterClaim (month : ℕ) : String :=
  if 4 ≤ month ∧ month ≤ 6 then "Q1"
  else if 7 ≤ month ∧ month ≤ 9 then "Q2"
  else if 10 ≤ month ∧ month ≤ 12 then "Q3"
  else "Q4"

/-! Buyer revenue share
RequestSummary CTE in `pipeline/data_pull.py` lines 45–112: a CASE over
the buyer organisation id, wrapped in `GREATEST(..., 0)`.  Timestamps
that feed `EXTRACT(DAY FROM a - b)` are embedded as day ordinals, so the
extracted day component of `a - b` is `a - b` (the pipeline only handles
day-granular due/clearance dates).  PostgreSQL raises `division by zero`
for a zero divisor (numeric and float alike), hence `Except`. -/

structure Txn where
  buyerId : ℤ
  apr : ℚ                    -- epri."apr"
  amount : ℚ                 -- inv."amount"
  daysAdvanced : ℚ           -- epri."daysAdvanced"
  effectiveDiscount : ℚ      -- epri."effectiveDiscount"
  effectiveDiscountRate : ℚ  -- epri."effectiveDiscountRate"
  estimatedDueDate : ℤ       -- inv."estimatedDueDateAtUtc", day ordinal
  dueDate : ℤ                -- inv."dueDateAtUtc", day ordinal
  toBeClearedOn : ℤ          -- epri."toBeClearedOnUtc", day ordinal
  deriving DecidableEq

/-- PostgreSQL division: raises `division by zero` on a zero divisor. -/
def sqlDiv (a b : ℚ) : Except String ℚ :=
  if b = 0 then .error "division by zero" else .ok (a / b)

/-- PostgreSQL GREATEST of two non-null numerics. -/
def sqlGreatest (a b : ℚ) : ℚ := if a ≤ b then b else a

/-- The CASE expression of the RequestSummary CTE (before the GREATEST
clamp), branch for branch in source order. -/
def revenueShareCase (t : Txn) : Except String ℚ :=
  if t.buyerId ∈ ([128999, 11111, 24814, 163022] : List ℤ) then
    .ok (((t.apr - 8) * t.amount * t.daysAdvanced) / 36500 *
      (if t.amount < 150000000 then 0.125
       else if 150000000 ≤ t.amount ∧ t.amount ≤ 250000000 then 0.15
       else 0.175))
  else if t.buyerId ∈ ([448, 9916, 158109] : List ℤ) then
    .ok (t.effectiveDiscount * 0.0875)
  else if t.buyerId = 586 then .ok (t.effectiveDiscount * 0.095)
  else if t.buyerId ∈ ([10963, 11326, 11, 246800, 275674] : List ℤ) then
    .ok (t.effectiveDiscount * 0.10)
  else if t.buyerId ∈ ([24217, 136067, 4752, 154673] : List ℤ) then
    .ok (t.effectiveDiscount * 0.15)
  else if t.buyerId = 379 then
    .ok ((t.effectiveDiscountRate * t.amount / 100) * 0.35)
  else if t.buyerId ∈ ([22483, 199095] : List ℤ) then
    .ok (t.effectiveDiscount * 0.14)
  else if t.buyerId = 368 then .ok (t.effectiveDiscount * 0.13)
  else if t.buyerId = 193694 then .ok (t.effectiveDiscount * 0.18)
  else if t.buyerId ∈ ([66, 452, 546, 431] : List ℤ) then
    .ok ((((t.apr - 7) * t.amount * t.daysAdvanced) / 36500) * 0.20)
  else if t.buyerId = 11323 then
    .ok ((((t.apr - 6.5) * t.amount * t.daysAdvanced) / 36500) * 0.16)
  else if t.buyerId = 8672 then
    .ok ((((t.apr - 8) * t.amount * t.daysAdvanced) / 36500) * 0.10)
  else if t.buyerId = 1437 then
    .ok ((((t.apr - 6.5) * t.amount * t.daysAdvanced) / 36500) * 0.20)
  else if t.buyerId = 153 then
    .ok ((((t.apr - 9) * t.amount * t.daysAdvanced) / 36500) * 0.35)
  else if t.buyerId = 55 then
    .ok ((((t.apr - 7.34) * t.amount * t.daysAdvanced) / 36500) * 0.11)
  else if t.buyerId = 8933 then
    .ok ((((t.apr - 8.5) * t.amount * t.daysAdvanced) / 36500) * 0.20)
  else if t.buyerId ∈ ([196860, 196029] : List ℤ) then
    .ok ((((t.apr - 8) * t.amount * t.daysAdvanced) / 36500) * 0.50)
  else if t.buyerId = 38 then
    .ok ((((t.apr - 10) * t.amount * t.daysAdvanced) / 36500) * 0.15)
  else if t.buyerId = 2795 then
    (sqlDiv ((t.estimatedDueDate - t.dueDate : ℤ) : ℚ)
            ((t.estimatedDueDate - t.toBeClearedOn : ℤ) : ℚ)).map
      (fun r => t.effectiveDiscount * r * 0.25)
  else if t.buyerId = 11625 then
    .ok (if 10 < t.apr - t.apr * 0.14 then t.effectiveDiscount * 0.14
         else ((t.apr - 10) * t.amount * t.daysAdvanced) / 36500)
  else if t.buyerId = 24505 then
    .ok (if t.apr / 1.15 < 10.25 then t.effectiveDiscount * (t.apr - 10.25) / 100
         else t.effectiveDiscount * 0.15)
  else if t.buyerId = 688 then
    .ok (if t.apr < 15 then t.effectiveDiscount * 0.12 else t.effectiveDiscount * 0.15)
  else .ok 0

/-- Source `GREATEST(CASE ..., 0)`: the Buyer Revenue Share contribution of one
invoice row. -/
def buyerRevenueShare (t : Txn) : Except String ℚ :=
  (revenueShareCase t).map (fun v => sqlGreatest v 0)

/-- All buyer ids that occur in some branch of the CASE. -/
def revenueShareRuleIds : List ℤ :=
  [128999, 11111, 24814, 163022, 448, 9916, 158109, 586,
   10963, 11326, 11, 246800, 275674, 24217, 136067, 4752, 154673, 379,
   22483, 199095, 368, 193694, 66, 452, 546, 431, 11323, 8672, 1437,
   153, 55, 8933, 196860, 196029, 38, 2795, 11625, 24505, 688]

/-! Pandas value semantics
`none` embeds NaN.  In pandas/NumPy every ordered comparison and every
equality test against NaN is false. -/

/-- pandas `a >= t` with a possibly-NaN left operand. -/
def pyGE (a : Option ℚ) (t : ℚ) : Bool :=
  match a with
  | none => false
  | some x => decide (t ≤ x)

/-- pandas `a > t` with a possibly-NaN left operand. -/
def pyGT (a : Option ℚ) (t : ℚ) : Bool :=
  match a with
  | none => false
  | some x => decide (t < x)

/-- pandas `a == t` with a possibly-NaN left operand. -/
def pyEQ (a : Option ℚ) (t : ℚ) : Bool :=
  match a with
  | none => false
  | some x => decide (x = t)

/-- A pandas float64: a number, NaN, or a signed infinity. -/
inductive PFloat
  | num (q : ℚ)
  | nan
  | pinf
  | ninf
  deriving DecidableEq

/-- IEEE-style division of two (finite) pandas floats. -/
def pFloatDiv (a b : ℚ) : PFloat :=
  if b = 0 then
    if 0 < a then .pinf else if a < 0 then .ninf else .nan
  else .num (a / b)

/-- Source `calculations_2.py` line 105 cleanup:
`.replace([float("inf"), -float("inf")], 0).fillna(0)`. -/
def cleanAcc_c2 : PFloat → PFloat
  | .pinf => .num 0
  | .ninf => .num 0
  | .nan => .num 0
  | x => x

/-- Source `calculations_3.py` line 67 cleanup:
`.replace([pd.NA, float("inf")], 0).fillna(0)` — note that `-inf` is in
neither list and survives. -/
def cleanAcc_c3 : PFloat → PFloat
  | .pinf => .num 0
  | .nan => .num 0
  | x => x

/-! Python classifiers
`tofu_cat` and `bofu_cat` from `pipeline/calculations_2.py` lines
113–174 (the same function bodies appear in `calculations_3.py` lines
80–143).  `latest_fyq` is the closure variable computed at line 35.
Months reaching `bofu_cat` are pandas month-start timestamps; they are
embedded as `ℤ` day ordinals, and the `DateOffset(months=8)` shift is
passed in as the precomputed day ordinal `last_month_minus_8m` (its
value relative to `last_month` depends on the calendar and is not needed
by any property below).  `first_qtr` is `none` when `pd.isna` holds,
`acc` is `none` when the merged Acc-Rate cell is NaN. -/

/-- Source `tofu_cat(first_qtr, cnt, hi, mid)` from `calculations_2.py`
lines 113–126. -/
def tofu_cat (latest_fyq : String) (first_qtr : Option String)
    (cnt : Option ℚ) (hi mid : ℚ) : String :=
  match first_qtr with
  | none => "TOFU Low"                  -- if pd.isna(first_qtr)
  | some fq =>
    if fq = latest_fyq then "TOFU New"
    else if pyGE cnt hi then "TOFU Regular"
    else if pyGE cnt mid then "TOFU Medium"
    else "TOFU Low"

/-- Source `bofu_cat(first_qtr, acc, last_bofu_qtr, n_tofu_instances,
last_three_tofu_months)` from `calculations_2.py` lines 135–174 /
`calculations_3.py` lines 104–143.  `last_three_tofu_max` stands for
`last_three_tofu_months.max()`; it is only consulted when
`n_tofu_instances` is truthy (in the pipeline it is then never absent —
the `none` case of the guard is unreachable there). -/
def bofu_cat (latest_fyq : String) (last_month : ℤ)
    (last_month_minus_8m : ℤ) (daysBetween : ℤ → ℤ → ℤ)
    (first_qtr : Option String) (acc : Option ℚ)
    (last_bofu_qtr : Option ℤ) (n_tofu_instances : ℕ)
    (last_three_tofu_max : Option ℤ) : String :=
  match first_qtr with
  | none =>
    -- 0) Never transacted
    if n_tofu_instances ≠ 0 ∧
        (match last_three_tofu_max with
         | some mx => decide (last_month_minus_8m ≤ mx)
         | none => false) = true then
      "Not Txn – New TOFU"
    else
      "Not Txn – Old TOFU"
  | some fq =>
    -- 1) BOFU happened in latest FYQ
    if fq = latest_fyq then "Txn New"
    -- 2) Normal tiers
    else if pyGE acc 0.8 then "Txn High"
    else if pyGE acc 0.5 then "Txn Med"
    else if pyGT acc 0 then
      match last_bofu_qtr with
      | some lb =>
        -- months_since_last_bofu = (last_month - last_bofu_qtr).days / 30
        if 12 < ((daysBetween last_month lb : ℚ) / 30) then "Churned >1 yr"
        else "Churned <1 yr"
      | none =>
        if 2 ≤ n_tofu_instances ∧ pyEQ acc 0 then "At-risk of Churn"
        else "Txn Low"
    else "Not Txn"

/-- Spec side (claim C4): "first-positive-intake quarter equals the
latest fiscal quarter gives New; else count ≥ high-threshold gives
Regular; else count ≥ mid-threshold gives Medium; else Low". -/
def tofuTierClaim (latest_fyq : String) (first_qtr : Option String)
    (cnt : Option ℚ) (hi mid : ℚ) : String :=
  if first_qtr = some latest_fyq then "New"
  else if pyGE cnt hi then "Regular"
  else if pyGE cnt mid then "Medium"
  else "Low"

/-- The claim of C4 amended by the leading `pd.isna` guard of the code:
a missing first-positive-intake quarter is routed to Low before any
other test; the rest of the tree is unchanged. -/
def tofuTierAmended (latest_fyq : String) (first_qtr : Option String)
    (cnt : Option ℚ) (hi mid : ℚ) : String :=
  match first_qtr with
  | none => "Low"
  | some fq =>
    if fq = latest_fyq then "New"
    else if pyGE cnt hi then "Regular"
    else if pyGE cnt mid then "Medium"
    else "Low"

/-- The TOFU Category call sites, `calculations_2.py` lines 176–181:
18-month window with thresholds (13, 7). -/
def tofuCategory18 (latest_fyq : String) (first_qtr : Option String)
    (cnt : Option ℚ) : String :=
  tofu_cat latest_fyq first_qtr cnt 13 7

/-- 12-month window with thresholds (9, 5), `calculations_2.py` line 178. -/
def tofuCategory12 (latest_fyq : String) (first_qtr : Option String)
    (cnt : Option ℚ) : String :=
  tofu_cat latest_fyq first_qtr cnt 9 5

/-- 6-month window with thresholds (5, 3), `calculations_2.py` line 180. -/
def tofuCategory6 (latest_fyq : String) (first_qtr : Option String)
    (cnt : Option ℚ) : String :=
  tofu_cat latest_fyq first_qtr cnt 5 3

/-! The BOFU category call sites of `calculations_2.py`
Lines 183–188 call `bofu_cat(r["First BOFU (in lacs) Quarter"],
r.get("Acc Rate 18 month", 0))` — two positional arguments, while the
definition at line 135 declares five required positional parameters and
no defaults.  CPython therefore raises
`TypeError: bofu_cat() missing 3 required positional arguments`
before the function body runs, for every row the `DataFrame.apply`
visits. -/

/-- Number of required positional parameters of `bofu_cat`
(`calculations_2.py` lines 135–138). -/
def bofu_cat_param_count : ℕ := 5

/-- Number of positional arguments supplied at the `calculations_2.py`
call sites, lines 183–188. -/
def bofu_cat_callsite_arg_count : ℕ := 2

/-- One BOFU-category cell as `calculations_2.py` lines 183–188 compute
it: the call only produces a label if the argument count matches the
parameter count; otherwise CPython raises TypeError.  (The arguments
`none 0 none` in the `ok` branch stand for the three parameters the call
site would have to supply; the branch is unreachable because the call
supplies 2 of 5.) -/
def bofuCategoryCell_c2 (latest_fyq : String) (last_month : ℤ)
    (last_month_minus_8m : ℤ) (daysBetween : ℤ → ℤ → ℤ)
    (first_qtr : Option String) (acc : Option ℚ) : Except String String :=
  if bofu_cat_callsite_arg_count = bofu_cat_param_count then
    .ok (bofu_cat latest_fyq last_month last_month_minus_8m daysBetween
          first_qtr acc none 0 none)
  else
    .error "TypeError: bofu_cat() missing 3 required positional arguments"

/-! SQL rolling windows and vendor categories
VendorStats / VendorCategories CTEs of `pipeline/data_pull.py` lines
196–372, for one vendor partition.  `VendorMonthly` yields at most one
row per month the vendor has data for; months are month-truncated
timestamps, embedded as `ℤ` month indexes (one index step = one calendar
month, so a RANGE frame of k months PRECEDING keeps the rows whose
month index lies within `k` of the current row).  The history of a vendor
is the list of its `VendorMonthly` rows in `ORDER BY vm."Month"` order;
`ROWS BETWEEN k PRECEDING AND CURRENT ROW` windows act on list
positions. -/

structure VMRow where
  month : ℤ               -- vm."Month", month index
  tofu : ℚ                -- vm."TOFU"
  bofu : ℚ                -- vm."BOFU"
  deriving DecidableEq, Inhabited

/-- Membership in the RANGE frame BETWEEN 5 months PRECEDING AND
CURRENT ROW of a row whose month is `m`. -/
def inRange6 (m x : ℤ) : Bool := decide (m - 5 ≤ x ∧ x ≤ m)

/-- Membership in the RANGE frame BETWEEN 11 months PRECEDING AND
CURRENT ROW. -/
def inRange12 (m x : ℤ) : Bool := decide (m - 11 ≤ x ∧ x ≤ m)

/-- Source `sum_tofu_amt_6`: 6-month rolling TOFU amount (lines 201–206). -/
def sum_tofu_amt_6 (hist : List VMRow) (m : ℤ) : ℚ :=
  ((hist.filter (fun r => inRange6 m r.month)).map VMRow.tofu).sum

/-- Source `sum_bofu_amt_6` (lines 207–212). -/
def sum_bofu_amt_6 (hist : List VMRow) (m : ℤ) : ℚ :=
  ((hist.filter (fun r => inRange6 m r.month)).map VMRow.bofu).sum

/-- Source `sum_tofu_amt_12` (lines 215–220). -/
def sum_tofu_amt_12 (hist : List VMRow) (m : ℤ) : ℚ :=
  ((hist.filter (fun r => inRange12 m r.month)).map VMRow.tofu).sum

/-- Source `sum_bofu_amt_12` (lines 221–226). -/
def sum_bofu_amt_12 (hist : List VMRow) (m : ℤ) : ℚ :=
  ((hist.filter (fun r => inRange12 m r.month)).map VMRow.bofu).sum

/-- Source `count_tofu_6`: number of TOFU-positive months in the 6-month frame
(lines 229–234). -/
def count_tofu_6 (hist : List VMRow) (m : ℤ) : ℕ :=
  (hist.filter (fun r => inRange6 m r.month && decide (0 < r.tofu))).length

/-- Source `count_bofu_6` (lines 235–240). -/
def count_bofu_6 (hist : List VMRow) (m : ℤ) : ℕ :=
  (hist.filter (fun r => inRange6 m r.month && decide (0 < r.bofu))).length

/-- Source `count_tofu_12` (lines 243–248). -/
def count_tofu_12 (hist : List VMRow) (m : ℤ) : ℕ :=
  (hist.filter (fun r => inRange12 m r.month && decide (0 < r.tofu))).length

/-- Source `count_bofu_12` (lines 249–254). -/
def count_bofu_12 (hist : List VMRow) (m : ℤ) : ℕ :=
  (hist.filter (fun r => inRange12 m r.month && decide (0 < r.bofu))).length

/-- The `ROWS BETWEEN k PRECEDING AND CURRENT ROW` frame at list
position `i`: rows `max 0 (i - k)` through `i`. -/
def rowsFrame (hist : List VMRow) (i k : ℕ) : List VMRow :=
  (hist.take (i + 1)).drop (i - k)

/-- SQL `a / NULLIF(b, 0)`: NULL (here `none`) when `b = 0`. -/
def sqlDivNullIf (a b : ℚ) : Option ℚ :=
  if b = 0 then none else some (a / b)

/-- Source `bofu_cat_6m` from the VendorCategories CTE, lines 299–335, for the
row at position `i` of the ordered history of the vendor.  A comparison whose
ratio is NULL is not satisfied, so a NULL ratio falls through to the
ELSE branch. -/
def bofu_cat_6m (hist : List VMRow) (i : ℕ) : String :=
  let m := (hist.getD i default).month
  if count_bofu_6 hist m = 0 then "Never Transacted"
  else if ((rowsFrame hist i 2).countP (fun r => decide (0 < r.tofu)) = 3 ∧
           (rowsFrame hist i 2).countP (fun r => decide (0 < r.bofu)) = 0) then
    "Churned"
  else if ((rowsFrame hist i 1).countP (fun r => decide (0 < r.tofu)) = 2 ∧
           (rowsFrame hist i 1).countP (fun r => decide (0 < r.bofu)) = 0) then
    "At Risk"
  else
    let ratio := sqlDivNullIf (sum_bofu_amt_6 hist m) (sum_tofu_amt_6 hist m)
    if pyGE ratio 0.8 then "High"
    else if pyGE ratio 0.5 then "Med"
    else if pyGT ratio 0 then "Low"
    else "Never Transacted"

/-- Source `bofu_cat_12m`, lines 338–369 (same shape over the 12-month frame). -/
def bofu_cat_12m (hist : List VMRow) (i : ℕ) : String :=
  let m := (hist.getD i default).month
  if count_bofu_12 hist m = 0 then "Never Transacted"
  else if ((rowsFrame hist i 2).countP (fun r => decide (0 < r.tofu)) = 3 ∧
           (rowsFrame hist i 2).countP (fun r => decide (0 < r.bofu)) = 0) then
    "Churned"
  else if ((rowsFrame hist i 1).countP (fun r => decide (0 < r.tofu)) = 2 ∧
           (rowsFrame hist i 1).countP (fun r => decide (0 < r.bofu)) = 0) then
    "At Risk"
  else
    let ratio := sqlDivNullIf (sum_bofu_amt_12 hist m) (sum_tofu_amt_12 hist m)
    if pyGE ratio 0.8 then "High"
    else if pyGE ratio 0.5 then "Med"
    else if pyGT ratio 0 then "Low"
    else "Never Transacted"

/-! Python trailing cuts and acceleration rates
`calculations_2.py` lines 74–108 and `calculations_3.py` lines 49–69,
for one (PAN, Supplier[, Buyer]) partition.  The cutoffs are
`last_month - relativedelta(months=n)` for `n ∈ {18, 12, 6}`; on
first-of-month timestamps `relativedelta(months=n)` subtracts exactly
`n` from the month index.  The filter is `df["Month"] >= cutoff` with no
upper bound (the data carries no months after `last_month`). -/

/-- The cutoff `last_month - relativedelta(months=n)` of
`calculations_2.py` lines 75–77. -/
def pyCutoff (last_month : ℤ) (n : ℕ) : ℤ := last_month - n

/-- Membership in the `df["Month"] >= cutoff` trailing cut. -/
def pyInWindow (last_month : ℤ) (n : ℕ) (x : ℤ) : Bool :=
  decide (pyCutoff last_month n ≤ x)

/-- Spec side (claim C5): "the trailing window of size N covers exactly
the as-of month plus the N−1 preceding months". -/
def claimWindow (asOf : ℤ) (n : ℕ) (x : ℤ) : Bool :=
  decide (asOf - (n - 1 : ℕ) ≤ x ∧ x ≤ asOf)

/-- TOFU nonzero-month count over a trailing cut, `calculations_2.py`
lines 90–94: `(s != 0).sum()` over the months `>= cutoff`. -/
def pyTofuCount (hist : List VMRow) (last_month : ℤ) (n : ℕ) : ℕ :=
  (hist.filter (fun r => pyInWindow last_month n r.month && decide (r.tofu ≠ 0))).length

/-- Window TOFU sum over a trailing cut (`calculations_2.py` line 101). -/
def pyTofuSum (hist : List VMRow) (last_month : ℤ) (n : ℕ) : ℚ :=
  ((hist.filter (fun r => pyInWindow last_month n r.month)).map VMRow.tofu).sum

/-- Window BOFU sum over a trailing cut (`calculations_2.py` line 103). -/
def pyBofuSum (hist : List VMRow) (last_month : ℤ) (n : ℕ) : ℚ :=
  ((hist.filter (fun r => pyInWindow last_month n r.month)).map VMRow.bofu).sum

/-- The Acc-Rate-n-month cell of the partition in the merged table,
`calculations_2.py` lines 100–108: the groupby after the filter only
produces a row when the partition has at least one month in the cut;
`merged.merge(..., how="left")` leaves NaN (`none`) for the others.
When present, the value is `(bofu / tofu)` cleaned by
`.replace([inf, -inf], 0).fillna(0)`. -/
def accRateMerged_c2 (hist : List VMRow) (last_month : ℤ) (n : ℕ) : Option PFloat :=
  if (hist.filter (fun r => pyInWindow last_month n r.month)).isEmpty then none
  else some (cleanAcc_c2 (pFloatDiv (pyBofuSum hist last_month n) (pyTofuSum hist last_month n)))

/-- The supplier-level Acc-Rate-n-month cell of `calculations_3.py`
lines 55–69, whose cleanup is `.replace([pd.NA, float("inf")], 0).fillna(0)`. -/
def accRateMerged_c3 (hist : List VMRow) (last_month : ℤ) (n : ℕ) : Option PFloat :=
  if (hist.filter (fun r => pyInWindow last_month n r.month)).isEmpty then none
  else some (cleanAcc_c3 (pFloatDiv (pyBofuSum hist last_month n) (pyTofuSum hist last_month n)))

/-! Cash-Rich status
`enrich_dataframe` in `company_metrics.py` lines 90–105.  The chain is: `st_borr.replace(0, np.nan)`, `ratio = (cash_eq + invest) /
st_borr` (NaN-propagating), then
`((ratio > 2) & (rev_grow < 15)) | rating.str.upper().str.startswith("AA")`
and `np.where(mask, "Cash-Rich", "Non-Cash Rich")`. -/

structure CompanyRow where
  cashEq : ℚ          -- "Cash and Cash Equivalents" (missing → 0)
  currentInvest : ℚ   -- "Current investments" (missing → 0)
  shortTermBorrow : ℚ -- "Short term borrowings"
  revenueGrowth : ℚ   -- "Revenue growth in %" (missing → 0)
  rating : String     -- "Latest Credit Ratings" / "Rating"
  deriving DecidableEq

/-- ASCII uppercase of one character, as Python str.upper acts on the
ASCII rating strings. -/
def asciiUpper (c : Char) : Char :=
  if 97 ≤ c.toNat ∧ c.toNat ≤ 122 then Char.ofNat (c.toNat - 32) else c

/-- Python str.upper over the characters of a string. -/
def upperStr (s : String) : String := String.mk (s.data.map asciiUpper)

/-- Python str.startswith(p): the characters of `p` are a prefix of the
characters of `s`. -/
def strStartsWith (s p : String) : Bool :=
  decide (s.data.take p.data.length = p.data)

/-- Source `st_borr.replace(0, np.nan)`, line 93. -/
def stBorrReplaced (r : CompanyRow) : Option ℚ :=
  if r.shortTermBorrow = 0 then none else some r.shortTermBorrow

/-- Source `ratio = (cash_eq + invest) / st_borr`, line 101 (NaN when the
denominator was replaced by NaN). -/
def cashRatio (r : CompanyRow) : Option ℚ :=
  (stBorrReplaced r).map (fun b => (r.cashEq + r.currentInvest) / b)

/-- Source `cash_rich_mask`, lines 102–104. -/
def cashRichMask (r : CompanyRow) : Bool :=
  (pyGT (cashRatio r) 2 && decide (r.revenueGrowth < 15))
    || strStartsWith (upperStr r.rating) "AA"

/-- Source `df["Cash-Rich Status"]`, line 105. -/
def cashRichStatus (r : CompanyRow) : String :=
  if cashRichMask r then "Cash-Rich" else "Non-Cash Rich"

/-- Spec side (claim C9, amended only in the two places the code forces):
the flag is "Cash-Rich" exactly when ((cash+investments)/short-term
borrowings > 2 and revenue growth % < 15) or the uppercased credit
rating begins with "AA" — a zero short-term-borrowings denominator makes
the ratio branch false — and otherwise "Non-Cash Rich" (the code writes
the negative label with a space). -/
def cashRichClaimAmended (r : CompanyRow) : String :=
  if ((r.shortTermBorrow ≠ 0 ∧ 2 < (r.cashEq + r.currentInvest) / r.shortTermBorrow) ∧
        r.revenueGrowth < 15) ∨
      strStartsWith (upperStr r.rating) "AA" = true then
    "Cash-Rich"
  else "Non-Cash Rich"

/-! Theorems.  Each claim of the specification gets one main theorem;
counterexamples and witnesses are closed instances. -/

/-- Helper: GREATEST with zero is non-negative. -/
theorem sqlGreatest_zero_nonneg (v : ℚ) : 0 ≤ sqlGreatest v 0 := by
  unfold sqlGreatest
  split_ifs with h
  · exact le_refl 0
  · exact le_of_lt (lt_of_not_le h)

/-- Helper: mapping the GREATEST-with-zero clamp over a successful SQL
result always yields a non-negative value. -/
theorem map_greatest_zero_nonneg (e : Except String ℚ) (v : ℚ)
    (h : e.map (fun x => sqlGreatest x 0) = .ok v) : 0 ≤ v := by
  cases e with
  | error s => simp [Except.map] at h
  | ok u =>
    simp only [Except.map, Except.ok.injEq] at h
    exact h ▸ sqlGreatest_zero_nonneg u

/-- C1 (counterexample): the claim that the revenue attribution function
returns a (non-negative) value for every transaction record fails.  For
buyer 2795 the formula divides by the day difference between the
estimated due date and the clearance date; when the two coincide,
PostgreSQL raises division by zero and no value is returned. -/
theorem c1_counterexample :
    buyerRevenueShare ⟨2795, 10, 100, 5, 50, 1, 100, 90, 100⟩ =
      Except.error "division by zero" := by rfl

/-- C1 (amended): whenever the attribution CASE evaluates without error
(every buyer except the buyer-2795 date-ratio formula at a zero
clearance-day difference), the returned value is non-negative: the whole
CASE sits inside GREATEST(…, 0), so in particular the spread-based
formulas are clamped to zero when APR is below the base rate of the
buyer. -/
theorem c1_revenue_share_nonneg (t : Txn) (v : ℚ)
    (h : buyerRevenueShare t = .ok v) : 0 ≤ v := by
  unfold buyerRevenueShare at h
  exact map_greatest_zero_nonneg (revenueShareCase t) v h

/-- C1 (witness): a spread-based buyer (66, base rate 7) with APR 5 below
the base rate produces exactly the clamped value 0, which is
non-negative. -/
theorem c1_witness :
    buyerRevenueShare ⟨66, 5, 1000, 10, 0, 0, 0, 0, 1⟩ = Except.ok 0 ∧
    (0 : ℚ) ≤ 0 := by
  have h : buyerRevenueShare ⟨66, 5, 1000, 10, 0, 0, 0, 0, 1⟩ = Except.ok 0 := by
    norm_num [buyerRevenueShare, revenueShareCase, sqlGreatest, Except.map]
  exact ⟨h, c1_revenue_share_nonneg ⟨66, 5, 1000, 10, 0, 0, 0, 0, 1⟩ 0 h⟩

/-- C8: a transaction whose buyer identifier matches no branch of the
revenue-share CASE falls through to ELSE 0 and GREATEST(0, 0), so the
attribution is exactly zero and no error is raised. -/
theorem c8_unmatched_buyer_zero (t : Txn)
    (h : t.buyerId ∉ revenueShareRuleIds) :
    buyerRevenueShare t = Except.ok 0 := by
  simp only [revenueShareRuleIds, List.mem_cons, List.not_mem_nil, or_false] at h
  push_neg at h
  obtain ⟨n1, n2, n3, n4, n5, n6, n7, n8, n9, n10, n11, n12, n13, n14, n15, n16, n17, n18,
    n19, n20, n21, n22, n23, n24, n25, n26, n27, n28, n29, n30, n31, n32, n33, n34, n35,
    n36, n37, n38, n39⟩ := h
  simp [buyerRevenueShare, revenueShareCase, sqlGreatest, Except.map,
    n1, n2, n3, n4, n5, n6, n7, n8, n9, n10, n11, n12, n13, n14, n15, n16, n17, n18,
    n19, n20, n21, n22, n23, n24, n25, n26, n27, n28, n29, n30, n31, n32, n33, n34, n35,
    n36, n37, n38, n39]

/-- C8 (witness): buyer id 999 appears in no rule and gets zero. -/
theorem c8_witness :
    (999 : ℤ) ∉ revenueShareRuleIds ∧
    buyerRevenueShare ⟨999, 1, 2, 3, 4, 5, 6, 7, 8⟩ = Except.ok 0 :=
  ⟨by decide, c8_unmatched_buyer_zero ⟨999, 1, 2, 3, 4, 5, 6, 7, 8⟩ (by decide)⟩

/-- C7: the fiscal-year label is FY followed by the last two digits of
(calendar year + 1) for months from April on, and of the calendar year
otherwise; the fiscal quarter is Q1 for Apr–Jun, Q2 for Jul–Sep, Q3 for
Oct–Dec, Q4 for Jan–Mar (in both the if-chain and the list-indexed
implementation); and the boundary dates 2024-03-31 and 2024-04-01 map to
FY24 and FY25 respectively, also in the company-metrics variant. -/
theorem c7_fiscal_calendar (y m : ℕ) (h1 : 1 ≤ m) (h2 : m ≤ 12) :
    (fy_label y m = fyLabelClaim y m) ∧
    (fy_quarter m = fyQuarterClaim m) ∧
    fy_label 2024 3 = "FY24" ∧ fy_label 2024 4 = "FY25" ∧
    fy_label_cm 2024 3 = "FY24" ∧ fy_label_cm 2024 4 = "FY25" := by
  refine ⟨?_, ?_, by decide, by decide, by decide, by decide⟩
  · by_cases h : 4 ≤ m <;> simp [fy_label, fyLabelClaim, h]
  · interval_cases m <;> decide

/-- C7 (witness): the fiscal-calendar theorem instantiated at July 2024. -/
theorem c7_witness :
    (fy_label 2024 7 = fyLabelClaim 2024 7) ∧
    (fy_quarter 7 = fyQuarterClaim 7) ∧
    fy_label 2024 3 = "FY24" ∧ fy_label 2024 4 = "FY25" ∧
    fy_label_cm 2024 3 = "FY24" ∧ fy_label_cm 2024 4 = "FY25" :=
  c7_fiscal_calendar 2024 7 (by decide) (by decide)

/-- C4 (counterexample): the claimed decision order — first-quarter test,
then count thresholds — is not what the code evaluates.  The code routes
a missing (NaN) first-positive-intake quarter to TOFU Low before any
count test, so a row with no first quarter but an 18-month count of 13
gets Low from the code while the tree of the claim gives Regular. -/
theorem c4_counterexample :
    tofuCategory18 "FY25 Q1" none (some 13) = "TOFU Low" ∧
    tofuTierClaim "FY25 Q1" none (some 13) 13 7 = "Regular" := by
  constructor
  · rfl
  · simp [tofuTierClaim, pyGE]

/-- C4 (amended): with the missing-first-quarter guard added in front
(missing gives Low first), the IntakeTier decision tree is evaluated in
the claimed order — first-positive-intake quarter equals the latest
fiscal quarter gives New; else count at least the high threshold gives
Regular; else count at least the mid threshold gives Medium; else Low —
with thresholds (13, 7) for the 18-month window, (9, 5) for 12-month and
(5, 3) for 6-month, exactly as instantiated at the three call sites. -/
theorem c4_intake_tier_tree (latest : String) (fq : Option String) (cnt : Option ℚ) :
    tofuCategory18 latest fq cnt = "TOFU " ++ tofuTierAmended latest fq cnt 13 7 ∧
    tofuCategory12 latest fq cnt = "TOFU " ++ tofuTierAmended latest fq cnt 9 5 ∧
    tofuCategory6 latest fq cnt = "TOFU " ++ tofuTierAmended latest fq cnt 5 3 := by
  refine ⟨?_, ?_, ?_⟩ <;>
    (simp only [tofuCategory18, tofuCategory12, tofuCategory6]
     cases fq with
     | none => rfl
     | some s =>
       simp only [tofu_cat, tofuTierAmended]
       split_ifs <;> rfl)

/-- C4 (witness): the amended decision tree instantiated at a concrete
row that is New in all three windows. -/
theorem c4_witness :
    tofuCategory18 "FY25 Q1" (some "FY25 Q1") (some 2) =
      "TOFU " ++ tofuTierAmended "FY25 Q1" (some "FY25 Q1") (some 2) 13 7 ∧
    tofuCategory12 "FY25 Q1" (some "FY25 Q1") (some 2) =
      "TOFU " ++ tofuTierAmended "FY25 Q1" (some "FY25 Q1") (some 2) 9 5 ∧
    tofuCategory6 "FY25 Q1" (some "FY25 Q1") (some 2) =
      "TOFU " ++ tofuTierAmended "FY25 Q1" (some "FY25 Q1") (some 2) 5 3 :=
  c4_intake_tier_tree "FY25 Q1" (some "FY25 Q1") (some 2)

/-- C3: on every row the IntakeTier classifier returns a label and routes
a missing first-quarter aggregate to the lowest tier, but the
ConversionTier half of the claim fails in the code: the
`calculations_2.py` call sites pass 2 positional arguments to a
`bofu_cat` that requires 5, so CPython raises TypeError on every applied
row instead of returning a label (the `calculations_3.py` twin passes
all 5, showing the intent). -/
theorem c3_bofu_callsite_raises :
    bofuCategoryCell_c2 "FY25 Q1" 100 92 (fun a b => a - b) none (some 0) =
      Except.error "TypeError: bofu_cat() missing 3 required positional arguments" ∧
    bofu_cat_callsite_arg_count < bofu_cat_param_count ∧
    tofu_cat "FY25 Q1" none none 13 7 = "TOFU Low" := by
  exact ⟨rfl, by decide, rfl⟩

/-- C10: no input whatsoever makes the Python `bofu_cat` return the
label "At-risk of Churn": the branch demands the acceleration ratio be
simultaneously strictly positive (its enclosing branch) and equal to
zero (its own guard), which no pandas float satisfies (NaN fails both). -/
theorem c10_at_risk_unreachable (latest : String) (lm lm8 : ℤ)
    (db : ℤ → ℤ → ℤ) (fq : Option String) (acc : Option ℚ)
    (lb : Option ℤ) (nt : ℕ) (l3 : Option ℤ) :
    bofu_cat latest lm lm8 db fq acc lb nt l3 ≠ "At-risk of Churn" := by
  cases fq with
  | none =>
    simp only [bofu_cat]
    split_ifs <;> decide
  | some s =>
    cases lb with
    | some x =>
      simp only [bofu_cat]
      split_ifs <;> decide
    | none =>
      simp only [bofu_cat]
      split_ifs with h1 h2 h3 h4 h5 <;> try decide
      exfalso
      cases acc with
      | none => simp [pyGT] at h4
      | some q =>
        simp only [pyGT, decide_eq_true_eq] at h4
        simp only [pyEQ, decide_eq_true_eq] at h5
        exact absurd h4 (by rw [h5.2]; exact lt_irrefl 0)

/-- C10 (witness): the theorem instantiated at a concrete argument
tuple. -/
theorem c10_witness :
    bofu_cat "FY25 Q1" 100 92 (fun a b => a - b) (some "FY24 Q2") (some 1)
      none 3 none ≠ "At-risk of Churn" :=
  c10_at_risk_unreachable "FY25 Q1" 100 92 (fun a b => a - b)
    (some "FY24 Q2") (some 1) none 3 none

/-- Helper: the calculations-2 cleanup always produces a finite number. -/
theorem cleanAcc_c2_isNum (x : PFloat) : ∃ q, cleanAcc_c2 x = .num q := by
  cases x <;> exact ⟨_, rfl⟩

/-- Helper: a zero intake sum makes the calculations-2 ratio exactly 0. -/
theorem cleanAcc_c2_div_zero (a : ℚ) : cleanAcc_c2 (pFloatDiv a 0) = .num 0 := by
  unfold pFloatDiv
  split_ifs with h0 h1 h2
  · rfl
  · rfl
  · rfl
  · exact absurd rfl h0

/-- Helper: a zero intake sum with a non-negative conversion sum makes
the calculations-3 ratio exactly 0 (a negative conversion sum would
leave a surviving negative infinity there). -/
theorem cleanAcc_c3_div_zero (a : ℚ) (ha : 0 ≤ a) :
    cleanAcc_c3 (pFloatDiv a 0) = .num 0 := by
  unfold pFloatDiv
  split_ifs with h0 h1 h2
  · rfl
  · exact absurd h2 (not_lt.mpr ha)
  · rfl
  · exact absurd rfl h0

/-- C2 (counterexample): a vendor with positive intake in exactly the
three months 0 < 1 < 2 (all inside the 6-month frame) and zero
conversion throughout is labelled Never Transacted by the 6-month SQL
ConversionTier — the `count_bofu_6 = 0` branch fires first — and not
At Risk or Churned as the claim states. -/
theorem c2_counterexample :
    bofu_cat_6m [⟨0, 100, 0⟩, ⟨1, 100, 0⟩, ⟨2, 100, 0⟩] 2 = "Never Transacted" ∧
    bofu_cat_6m [⟨0, 100, 0⟩, ⟨1, 100, 0⟩, ⟨2, 100, 0⟩] 2 ≠ "At Risk" ∧
    bofu_cat_6m [⟨0, 100, 0⟩, ⟨1, 100, 0⟩, ⟨2, 100, 0⟩] 2 ≠ "Churned" := by
  refine ⟨by decide, by decide, by decide⟩

/-- C2 (amended): for a vendor whose conversion is zero in every month
(so in particular in all three intake months of the window), the
6-month ConversionTier is Never Transacted: the zero-conversion guard
precedes both the churn/at-risk overrides and the ratio tiers, so no
ratio-based tier such as Low is assigned. -/
theorem c2_zero_conversion_never_transacted (hist : List VMRow) (i : ℕ)
    (hb : ∀ r ∈ hist, r.bofu = 0)
    (_ht : count_tofu_6 hist ((hist.getD i default).month) = 3) :
    bofu_cat_6m hist i = "Never Transacted" ∧ bofu_cat_6m hist i ≠ "Low" := by
  have hcb : count_bofu_6 hist ((hist.getD i default).month) = 0 := by
    unfold count_bofu_6
    rw [List.length_eq_zero, List.filter_eq_nil_iff]
    intro r hr
    simp only [Bool.and_eq_true, decide_eq_true_eq, not_and]
    intro _
    rw [hb r hr]
    exact lt_irrefl 0
  have h1 : bofu_cat_6m hist i = "Never Transacted" := by
    simp only [bofu_cat_6m]
    rw [if_pos hcb]
  exact ⟨h1, by rw [h1]; decide⟩

/-- C2 (witness): the amended statement at a concrete three-month
intake-only history. -/
theorem c2_witness :
    bofu_cat_6m [⟨4, 7, 0⟩, ⟨5, 7, 0⟩, ⟨6, 7, 0⟩] 2 = "Never Transacted" ∧
    bofu_cat_6m [⟨4, 7, 0⟩, ⟨5, 7, 0⟩, ⟨6, 7, 0⟩] 2 ≠ "Low" :=
  c2_zero_conversion_never_transacted [⟨4, 7, 0⟩, ⟨5, 7, 0⟩, ⟨6, 7, 0⟩] 2
    (by decide) (by decide)

/-- C5 (counterexample): the Python trailing cut labelled 6 months
(cutoff `last_month - relativedelta(months=6)`, filter Month >= cutoff)
admits the month exactly 6 steps before the as-of month — outside the
claimed as-of-plus-5-preceding span — and counts 7 intake months over a
7-month history, so the claimed exactly-N-month coverage fails for the
Python windows. -/
theorem c5_counterexample :
    pyInWindow 100 6 94 = true ∧
    claimWindow 100 6 94 = false ∧
    pyTofuCount [⟨94, 1, 0⟩, ⟨95, 1, 0⟩, ⟨96, 1, 0⟩, ⟨97, 1, 0⟩,
      ⟨98, 1, 0⟩, ⟨99, 1, 0⟩, ⟨100, 1, 0⟩] 100 6 = 7 := by
  refine ⟨by decide, by decide, by decide⟩

/-- C5 (amended): the SQL rolling frames do cover exactly the as-of
month plus the N−1 preceding months for N in {6, 12}, and windows
truncate to the available history (a history lying inside the frame is
summed in full, with no zero padding); the Python trailing cuts of
calculations_2/3 instead span N+1 calendar months: their membership
test for the cut labelled N agrees with an exact window of size N+1. -/
theorem c5_window_semantics (m x last : ℤ) (n : ℕ) (hist : List VMRow)
    (hx : x ≤ last)
    (hhist : ∀ r ∈ hist, m - 5 ≤ r.month ∧ r.month ≤ m) :
    inRange6 m x = claimWindow m 6 x ∧
    inRange12 m x = claimWindow m 12 x ∧
    pyInWindow last n x = claimWindow last (n + 1) x ∧
    sum_tofu_amt_6 hist m = (hist.map VMRow.tofu).sum := by
  refine ⟨?_, ?_, ?_, ?_⟩
  · simp only [inRange6, claimWindow]
    rw [decide_eq_decide]
    omega
  · simp only [inRange12, claimWindow]
    rw [decide_eq_decide]
    omega
  · simp only [pyInWindow, pyCutoff, claimWindow]
    rw [decide_eq_decide]
    omega
  · have hf : hist.filter (fun r => inRange6 m r.month) = hist := by
      rw [List.filter_eq_self]
      intro r hr
      simp only [inRange6, decide_eq_true_eq]
      exact hhist r hr
    simp only [sum_tofu_amt_6, hf]

/-- C5 (witness): the window characterisation at concrete inputs. -/
theorem c5_witness :
    inRange6 100 98 = claimWindow 100 6 98 ∧
    inRange12 100 98 = claimWindow 100 12 98 ∧
    pyInWindow 100 6 98 = claimWindow 100 7 98 ∧
    sum_tofu_amt_6 [⟨97, 2, 0⟩, ⟨100, 3, 0⟩] 100 =
      (([⟨97, 2, 0⟩, ⟨100, 3, 0⟩] : List VMRow).map VMRow.tofu).sum :=
  c5_window_semantics 100 98 100 6 [⟨97, 2, 0⟩, ⟨100, 3, 0⟩]
    (by decide) (by decide)

/-- C6 (counterexample): a partition whose only activity lies before the
cutoff (one row at month 0, cutoff month 4 for the 6-month cut ending at
month 10) is dropped by the post-filter groupby, so the left merge
leaves its Acc-Rate cell NaN — null, not the zero the claim requires for
a missing operand. -/
theorem c6_counterexample :
    accRateMerged_c2 [⟨0, 5, 3⟩] 10 6 = none ∧
    accRateMerged_c2 [⟨0, 5, 3⟩] 10 6 ≠ some (PFloat.num 0) := by
  refine ⟨by decide, by decide⟩

/-- C6 (amended): for a partition with at least one month in the
trailing cut, the acceleration ratio is always a finite number, and it
is exactly zero whenever the intake sum of the window is zero (division
by zero and 0/0 are cleaned to zero, never an error or an infinity; the
calculations-3 variant needs the non-negative conversion sums the data
guarantees, since its cleanup list omits negative infinity).  A
partition with no month in the cut instead receives a null (NaN) ratio
from the left merge, not zero. -/
theorem c6_acc_rate_semantics (hist : List VMRow) (last : ℤ) (n : ℕ) :
    ((hist.filter (fun r => pyInWindow last n r.month)) = [] →
      accRateMerged_c2 hist last n = none ∧ accRateMerged_c3 hist last n = none) ∧
    ((hist.filter (fun r => pyInWindow last n r.month)) ≠ [] →
      (∃ q, accRateMerged_c2 hist last n = some (.num q)) ∧
      (pyTofuSum hist last n = 0 → accRateMerged_c2 hist last n = some (.num 0)) ∧
      (pyTofuSum hist last n = 0 → 0 ≤ pyBofuSum hist last n →
        accRateMerged_c3 hist last n = some (.num 0))) := by
  constructor
  · intro h
    constructor <;> simp [accRateMerged_c2, accRateMerged_c3, h]
  · intro h
    have hne : (hist.filter (fun r => pyInWindow last n r.month)).isEmpty = false := by
      rcases hf : hist.filter (fun r => pyInWindow last n r.month) with _ | ⟨a, l⟩
      · exact absurd hf h
      · rw [hf]
        rfl
    refine ⟨?_, ?_, ?_⟩
    · simp only [accRateMerged_c2, hne, Bool.false_eq_true, if_false]
      obtain ⟨q, hq⟩ := cleanAcc_c2_isNum
        (pFloatDiv (pyBofuSum hist last n) (pyTofuSum hist last n))
      exact ⟨q, by rw [hq]⟩
    · intro h0
      simp only [accRateMerged_c2, hne, Bool.false_eq_true, if_false, h0]
      rw [cleanAcc_c2_div_zero]
    · intro h0 hb
      simp only [accRateMerged_c3, hne, Bool.false_eq_true, if_false, h0]
      rw [cleanAcc_c3_div_zero _ hb]

/-- C6 (witness): a partition with one in-window month, zero intake sum
and positive conversion sum gets ratio zero in both pipelines. -/
theorem c6_witness :
    accRateMerged_c2 [⟨10, 0, 5⟩] 10 6 = some (PFloat.num 0) ∧
    accRateMerged_c3 [⟨10, 0, 5⟩] 10 6 = some (PFloat.num 0) :=
  ⟨((c6_acc_rate_semantics [⟨10, 0, 5⟩] 10 6).2 (by decide)).2.1
     (by norm_num [pyTofuSum, pyInWindow, pyCutoff]),
   ((c6_acc_rate_semantics [⟨10, 0, 5⟩] 10 6).2 (by decide)).2.2
     (by norm_num [pyTofuSum, pyInWindow, pyCutoff])
     (by norm_num [pyBofuSum, pyInWindow, pyCutoff])⟩

/-- C9 (counterexample): a company failing both conditions is labelled
with the string "Non-Cash Rich" (space), not the "Non-Cash-Rich"
(hyphen) the claim states. -/
theorem c9_counterexample :
    cashRichStatus ⟨0, 0, 100, 0, "B"⟩ = "Non-Cash Rich" ∧
    cashRichStatus ⟨0, 0, 100, 0, "B"⟩ ≠ "Non-Cash-Rich" := by
  have hsw : strStartsWith (upperStr "B") "AA" = false := by decide
  have hmask : cashRichMask ⟨0, 0, 100, 0, "B"⟩ = false := by
    unfold cashRichMask cashRatio stBorrReplaced
    rw [hsw]
    norm_num [pyGT]
  have h1 : cashRichStatus ⟨0, 0, 100, 0, "B"⟩ = "Non-Cash Rich" := by
    unfold cashRichStatus
    rw [hmask]
    rfl
  exact ⟨h1, by rw [h1]; decide⟩

/-- C9 (amended): the flag is "Cash-Rich" exactly when
((cash + investments) / short-term borrowings > 2 and revenue growth %
< 15) or the uppercased credit rating begins with AA; a zero short-term
borrowings denominator is replaced by NaN so that branch of the mask is
false (never true via infinity); the negative label the code writes is
"Non-Cash Rich"; and the concrete scenario cash+investments = 300,
short-term borrowings = 100, growth = 10 yields "Cash-Rich". -/
theorem c9_cash_rich_flag (r : CompanyRow) :
    cashRichStatus r = cashRichClaimAmended r ∧
    (r.shortTermBorrow = 0 → strStartsWith (upperStr r.rating) "AA" = false →
      cashRichStatus r = "Non-Cash Rich") ∧
    cashRichStatus ⟨300, 0, 100, 10, ""⟩ = "Cash-Rich" := by
  have hm : (cashRichMask r = true) ↔
      (((r.shortTermBorrow ≠ 0 ∧ 2 < (r.cashEq + r.currentInvest) / r.shortTermBorrow) ∧
        r.revenueGrowth < 15) ∨ strStartsWith (upperStr r.rating) "AA" = true) := by
    unfold cashRichMask cashRatio stBorrReplaced
    by_cases hst : r.shortTermBorrow = 0 <;> simp [hst, pyGT]
  refine ⟨?_, ?_, ?_⟩
  · unfold cashRichStatus cashRichClaimAmended
    by_cases h : cashRichMask r = true
    · rw [if_pos h, if_pos (hm.mp h)]
    · rw [if_neg h, if_neg (fun hc => h (hm.mpr hc))]
  · intro h0 hsw
    unfold cashRichStatus cashRichMask cashRatio stBorrReplaced
    rw [hsw]
    simp [h0, pyGT]
  · have hsw : strStartsWith (upperStr "") "AA" = false := by decide
    have hmask : cashRichMask ⟨300, 0, 100, 10, ""⟩ = true := by
      unfold cashRichMask cashRatio stBorrReplaced
      rw [hsw]
      norm_num [pyGT]
    unfold cashRichStatus
    rw [hmask]
    rfl

/-- C9 (witness): the amended flag characterisation at a concrete
record with zero short-term borrowings and a non-AA rating. -/
theorem c9_witness :
    cashRichStatus ⟨1, 2, 0, 3, "b"⟩ = cashRichClaimAmended ⟨1, 2, 0, 3, "b"⟩ ∧
    cashRichStatus ⟨1, 2, 0, 3, "b"⟩ = "Non-Cash Rich" :=
  ⟨(c9_cash_rich_flag ⟨1, 2, 0, 3, "b"⟩).1,
   (c9_cash_rich_flag ⟨1, 2, 0, 3, "b"⟩).2.1 (by decide) (by decide)⟩

end Cashflo
